import Mathlib

/-!
Verification of the natural-language specification of
`src/models/sarima.py` (class `SARIMAModel`) against a shallow
embedding of its code.

Modelling conventions:
* Cell values of a pandas DataFrame are modelled by `Val` (integer
  labels / encoded dates and rational measurements); a missing entry
  (NaN) is `none` in `Option Val`.
* A DataFrame is an index (row labels) together with named columns.
* Python exceptions are modelled by `PyError`; a method that can raise
  returns an `Except PyError _` component.  Methods that mutate their
  arguments or the receiver in place return the final state of those
  objects explicitly.
* The external statsmodels estimator is an opaque collaborator: the
  fitted-results handle `SARIMAXResults` records the fitting arguments
  and an abstract prediction function supplied by an `SARIMAEstimator`
  parameter.  `predict start stop` returns the predictions at integer
  positions `start .. stop` and `forecast steps` continues for `steps`
  positions after the sample, which is the documented contract of the
  library (spec section 6).
-/

/-- A pandas cell value: an integer label (encoded date) or a rational
measurement. -/
inductive Val where
  | nat : Nat → Val
  | rat : ℚ → Val
deriving DecidableEq

/-- A pandas DataFrame: an index of row labels and an association list
of named columns; `none` entries are NaN. -/
structure DataFrame where
  index : List (Option Val)
  cols : List (String × List (Option Val))
deriving DecidableEq

/-- `shape[0]`: the number of rows (length of the index). -/
def DataFrame.nrows (d : DataFrame) : Nat := d.index.length

/-- `shape[1]`: the number of columns (the index is not counted). -/
def DataFrame.ncols (d : DataFrame) : Nat := d.cols.length

/-- The list of column names. -/
def DataFrame.colNames (d : DataFrame) : List String := d.cols.map Prod.fst

/-- Look a column up by name. -/
def DataFrame.getCol (d : DataFrame) (c : String) : Option (List (Option Val)) :=
  d.cols.lookup c

/-- A Python exception. -/
inductive PyError where
  | exception : String → PyError
  | keyError : String → PyError
  | attributeError : String → PyError
deriving DecidableEq

/-- The message of the input-shape error raised by `SARIMAModel.fit`. -/
def shapeErrorMsg : String :=
  "Univariate models cannot fit with datasets with more than 1 feature."

/-- The column relabelling passed to `rename` by `fit` and `evaluate`:
Date becomes ds and Consumption becomes y. -/
def dcRename (n : String) : String :=
  if n = "Date" then "ds" else if n = "Consumption" then "y" else n

/-- The column relabelling applied to the combined frame in `evaluate`:
y becomes gt. -/
def gtRename (n : String) : String :=
  if n = "y" then "gt" else n

/-- `df.rename(columns=..., inplace=True)`: relabel the columns, keep
everything else.  Keys that match no column are ignored (pandas default
errors behaviour). -/
def DataFrame.rename (d : DataFrame) (f : String → String) : DataFrame :=
  { d with cols := d.cols.map (fun p => (f p.1, p.2)) }

/-- `df.set_index(c)` (not in place): move column `c` into the index;
raises KeyError when the column is absent. -/
def DataFrame.set_index (d : DataFrame) (c : String) : Except PyError DataFrame :=
  match d.cols.lookup c with
  | some v => .ok { index := v, cols := d.cols.filter (fun p => p.1 != c) }
  | none => .error (.keyError c)

/-- `df[c] = series`: overwrite or add the named column with numeric
values.  An index-aligned assignment never changes the rows of the
frame, only the column; in the evaluate workflow the assigned series
carries the frame's own index, so the alignment is positional. -/
def DataFrame.setCol (d : DataFrame) (c : String) (vals : List ℚ) : DataFrame :=
  let v : List (Option Val) := vals.map (fun q => some (Val.rat q))
  if d.colNames.contains c then
    { d with cols := d.cols.map (fun p => if p.1 = c then (p.1, v) else p) }
  else
    { d with cols := d.cols ++ [(c, v)] }

/-- `d1.append(d2)`: concatenate the rows; the columns are the union of
both frames' columns (first frame's order first) and entries missing on
either side become NaN. -/
def DataFrame.append (d1 d2 : DataFrame) : DataFrame :=
  let names := d1.colNames ++ (d2.colNames.filter (fun n => ! d1.colNames.contains n))
  { index := d1.index ++ d2.index
    cols := names.map (fun n =>
      (n, ((d1.getCol n).getD (List.replicate d1.nrows none)) ++
          ((d2.getCol n).getD (List.replicate d2.nrows none)))) }

/-- The fitted-results handle returned by the external library
(`smt.SARIMAX(...).fit()`).  Modelled from the spec: the library is an
opaque collaborator whose handle records the fitting arguments, the
sample size, and an abstract prediction function over integer
positions. -/
structure SARIMAXResults where
  order : Nat × Nat × Nat
  seasonal_order : Nat × Nat × Nat × Nat
  nobs : Nat
  enforce_stationarity : Bool
  enforce_invertibility : Bool
  predFun : Int → ℚ

/-- `.predict(start, end)`: predictions at integer positions
`start .. end` of the series continuation. -/
def SARIMAXResults.predict (r : SARIMAXResults) (start stop : Int) : List ℚ :=
  (List.range (stop + 1 - start).toNat).map
    (fun (i : Nat) => r.predFun (start + (i : Int)))

/-- `.fittedvalues`: the in-sample predictions, one per observation. -/
def SARIMAXResults.fittedvalues (r : SARIMAXResults) : List ℚ :=
  r.predict 0 ((r.nobs : Int) - 1)

/-- `.forecast(steps)`: out-of-sample predictions for the `steps`
positions immediately after the sample. -/
def SARIMAXResults.forecast (r : SARIMAXResults) (steps : Nat) : List ℚ :=
  r.predict (r.nobs : Int) ((r.nobs : Int) + (steps : Int) - 1)

/-- The opaque parameter-estimation routine of the external library:
given the series and both orders it yields the prediction function of
the fitted model. -/
def SARIMAEstimator : Type :=
  DataFrame → Nat × Nat × Nat → Nat × Nat × Nat × Nat → Int → ℚ

/-- `smt.SARIMAX(series, order=..., seasonal_order=...,
enforce_stationarity=False, enforce_invertibility=False).fit(disp=1)`. -/
def SARIMAX_fit (est : SARIMAEstimator) (series : DataFrame)
    (order : Nat × Nat × Nat) (seasonal_order : Nat × Nat × Nat × Nat) :
    SARIMAXResults :=
  { order := order
    seasonal_order := seasonal_order
    nobs := series.nrows
    enforce_stationarity := false
    enforce_invertibility := false
    predFun := est series order seasonal_order }

/-- The hyperparameter mapping handed to the constructor, restricted to
the keys the class reads; an absent key is `none` and `get` with a
default is `Option.getD`. -/
structure HParams where
  AUTO_PARAMS : Option Bool := none
  TREND_P : Option Nat := none
  TREND_D : Option Nat := none
  TREND_Q : Option Nat := none
  SEASONAL_P : Option Nat := none
  SEASONAL_D : Option Nat := none
  SEASONAL_Q : Option Nat := none
  M : Option Nat := none

/-- The state of a `SARIMAModel` instance.  The fields `univariate`,
`name`, `model`, `train_date` and `log_dir` are stored by the base
class `ModelStrategy` constructor (modelled from the spec: the base
class, outside this file's source, keeps these shared fields; the base
class defines no `p_max`, `q_max` or `d_max` attribute, per the spec's
open question, so the attribute set of an instance is exactly the
fields below). -/
structure SARIMAModel where
  auto_params : Bool
  trend_p : Nat
  trend_d : Nat
  trend_q : Nat
  seasonal_p : Nat
  seasonal_d : Nat
  seasonal_q : Nat
  m : Nat
  univariate : Bool
  name : String
  model : Option SARIMAXResults
  train_date : String
  log_dir : Option String

/-- `SARIMAModel.__init__(hparams, log_dir)`.  `train_date` is the
training-date stamp recorded by the base strategy (modelled from the
spec: common bookkeeping such as training-date stamping is delegated to
the base class, which is outside this file's source). -/
def SARIMAModel.init (hparams : HParams) (log_dir : Option String)
    (train_date : String) : SARIMAModel :=
  { auto_params := hparams.AUTO_PARAMS.getD false
    trend_p := hparams.TREND_P.getD 10
    trend_d := hparams.TREND_D.getD 2
    trend_q := hparams.TREND_Q.getD 0
    seasonal_p := hparams.SEASONAL_P.getD 5
    seasonal_d := hparams.SEASONAL_D.getD 2
    seasonal_q := hparams.SEASONAL_Q.getD 0
    m := hparams.M.getD 12
    univariate := true
    name := "SARIMA"
    model := none
    train_date := train_date
    log_dir := log_dir }

/-- `SARIMAModel.fit(dataset)`.  Returns the raised exception or unit,
the final state of the receiver, and the final state of the caller's
dataset (the in-place rename mutates it).  In the automatic branch the
call `pmdarima.auto_arima(..., max_order=self.p_max + self.q_max, ...)`
reads the attribute `p_max`, which no method of the class (nor, per the
spec's open question, the base class) ever assigns, so the read raises
AttributeError before the search runs. -/
def SARIMAModel.fit (est : SARIMAEstimator) (self : SARIMAModel)
    (dataset : DataFrame) :
    Except PyError Unit × SARIMAModel × DataFrame :=
  if dataset.ncols ≠ 2 then
    (.error (.exception shapeErrorMsg), self, dataset)
  else
    let dataset := dataset.rename dcRename
    match dataset.set_index "ds" with
    | .error e => (.error e, self, dataset)
    | .ok series =>
      if self.auto_params then
        (.error (.attributeError "p_max"), self, dataset)
      else
        let order := (self.trend_p, self.trend_d, self.trend_q)
        let seasonal_order :=
          (self.seasonal_p, self.seasonal_d, self.seasonal_q, self.m)
        let fitted := SARIMAX_fit est series order seasonal_order
        (.ok (), { self with model := some fitted }, dataset)

/-- `SARIMAModel.evaluate(train_set, test_set)`.  Returns the combined
frame `df_forecast` that is handed to the base-class scoring routine
`evaluate_forecast` (out of scope per the spec), or the raised
exception; and the final states of the caller's two frames (the
in-place renames mutate them, while `set_index` rebinds the local
names only). -/
def SARIMAModel.evaluate (self : SARIMAModel)
    (train_set test_set : DataFrame) :
    Except PyError DataFrame × DataFrame × DataFrame :=
  let train_set := train_set.rename dcRename
  let test_set := test_set.rename dcRename
  match train_set.set_index "ds" with
  | .error e => (.error e, train_set, test_set)
  | .ok tr =>
    match test_set.set_index "ds" with
    | .error e => (.error e, train_set, test_set)
    | .ok te =>
      match self.model with
      | none => (.error (.attributeError "fittedvalues"), train_set, test_set)
      | some r =>
        let tr := tr.setCol "model" r.fittedvalues
        let te := te.setCol "forecast"
          (r.predict (tr.nrows : Int) ((tr.nrows : Int) + (te.nrows : Int) - 1))
        let df_forecast := (tr.append te).rename gtRename
        (.ok df_forecast, train_set, test_set)

/-- `SARIMAModel.forecast(days, recent_data=None)`: delegates to the
fitted handle; `recent_data` is never read.  With no fitted model the
attribute access `self.model.forecast` on None raises. -/
def SARIMAModel.forecast (self : SARIMAModel) (days : Nat)
    (recent_data : Option DataFrame) : Except PyError (List ℚ) :=
  match self.model with
  | none => .error (.attributeError "forecast")
  | some r => .ok (r.forecast days)

/-- A filesystem write performed by `save_model`: the directory passed
to `os.path.join` and the file name inside it. -/
structure FileWrite where
  dir : String
  fname : String
deriving DecidableEq

/-- `SARIMAModel.save_model(save_dir)`: when a model is fitted, one
serialized file named `self.name + self.train_date + ".pkl"` is written
under `save_dir`; otherwise the guard `if self.model:` skips the body
and nothing happens. -/
def SARIMAModel.save_model (self : SARIMAModel) (save_dir : String) :
    Except PyError (List FileWrite) :=
  if self.model.isSome then
    .ok [⟨save_dir, self.name ++ self.train_date ++ ".pkl"⟩]
  else
    .ok []

/-! Concrete sample data used by the witness theorems. -/

/-- A trivial estimation routine: every prediction is zero. -/
def est0 : SARIMAEstimator := fun _ _ _ _ => 0

/-- A well-formed two-column (Date, Consumption) frame with four rows. -/
def d0 : DataFrame :=
  { index := [some (Val.nat 0), some (Val.nat 1), some (Val.nat 2), some (Val.nat 3)]
    cols := [("Date",
               [some (Val.nat 0), some (Val.nat 1), some (Val.nat 2), some (Val.nat 3)]),
             ("Consumption",
               [some (Val.rat 1), some (Val.rat 2), some (Val.rat 3), some (Val.rat 2)])] }

/-- A one-column frame: the wrong shape for a univariate model. -/
def dBad : DataFrame :=
  { index := [some (Val.nat 0)], cols := [("Date", [some (Val.nat 0)])] }

/-- The empty hyperparameter mapping: every key resolves to its default. -/
def hp0 : HParams := {}

/-- A hyperparameter mapping enabling automatic order selection. -/
def hpAuto : HParams := { AUTO_PARAMS := some true }

/-- A freshly constructed, unfitted model. -/
def m0 : SARIMAModel := SARIMAModel.init hp0 none "20201112"

/-- A concrete fitted-results handle. -/
def r0 : SARIMAXResults :=
  { order := (1, 0, 0)
    seasonal_order := (0, 0, 0, 4)
    nobs := 4
    enforce_stationarity := false
    enforce_invertibility := false
    predFun := fun _ => 0 }

/-- The model `m0` after a successful fit produced `r0`. -/
def mFit : SARIMAModel := { m0 with model := some r0 }

/-! Helper lemmas shared by the claim theorems. -/

/-- The only error `set_index` can raise is the KeyError for the
requested column. -/
theorem set_index_error_is_keyError (d : DataFrame) (c : String)
    (e : PyError) (h : d.set_index c = .error e) : e = .keyError c := by
  unfold DataFrame.set_index at h
  cases hl : d.cols.lookup c <;> rw [hl] at h <;> simp_all

/-! Claim theorems. -/

/-- C1: for every dataset whose column count is not 2, `fit` raises the
input-shape error immediately and leaves the receiver (in particular
`self.model`) and the dataset untouched; for a two-column dataset the
shape error is never raised. -/
theorem fit_shape_check (est : SARIMAEstimator) (self : SARIMAModel)
    (d : DataFrame) :
    (d.ncols ≠ 2 →
      SARIMAModel.fit est self d =
        (.error (.exception shapeErrorMsg), self, d)) ∧
    (d.ncols = 2 →
      (SARIMAModel.fit est self d).1 ≠ .error (.exception shapeErrorMsg)) := by
  constructor
  · intro h
    simp [SARIMAModel.fit, h]
  · intro h
    simp only [SARIMAModel.fit, h]
    cases hix : (d.rename dcRename).set_index "ds" with
    | error e =>
      have he := set_index_error_is_keyError _ _ _ hix
      subst he
      simp
    | ok series =>
      by_cases ha : self.auto_params <;> simp [ha]

/-- C1 witness: the one-column frame `dBad` triggers the shape error
with state unchanged, and the two-column frame `d0` does not. -/
theorem fit_shape_check_witness :
    SARIMAModel.fit est0 m0 dBad =
      (.error (.exception shapeErrorMsg), m0, dBad) ∧
    (SARIMAModel.fit est0 m0 d0).1 ≠ .error (.exception shapeErrorMsg) :=
  ⟨(fit_shape_check est0 m0 dBad).1 (by decide),
   (fit_shape_check est0 m0 d0).2 (by decide)⟩

/-- C3: on a fitted model, `forecast(days)` returns (without error) the
handle's forecast, an ordered sequence of exactly `days` predicted
values. -/
theorem forecast_returns_days_values (self : SARIMAModel)
    (r : SARIMAXResults) (days : Nat) (rd : Option DataFrame)
    (hm : self.model = some r) (hdays : 0 < days) :
    self.forecast days rd = .ok (r.forecast days) ∧
    (r.forecast days).length = days := by
  refine ⟨by simp [SARIMAModel.forecast, hm], ?_⟩
  have ht : ((r.nobs : Int) + (days : Int) - 1 + 1 - (r.nobs : Int)).toNat
      = days := by omega
  simp only [SARIMAXResults.forecast, SARIMAXResults.predict,
    List.length_map, List.length_range]
  exact ht

/-- C3 witness: forecasting 4 days on the fitted model `mFit` yields
exactly 4 values. -/
theorem forecast_returns_days_values_witness :
    mFit.forecast 4 none = .ok (r0.forecast 4) ∧
    (r0.forecast 4).length = 4 :=
  forecast_returns_days_values mFit r0 4 none rfl (by decide)

/-- C5: `save_model` on a model with no fitted handle raises no error
and performs no filesystem write. -/
theorem save_model_unfitted_noop (self : SARIMAModel) (dir : String)
    (hm : self.model = none) :
    self.save_model dir = .ok [] := by
  simp [SARIMAModel.save_model, hm]

/-- C5 witness: saving the unfitted model `m0` writes nothing and
raises nothing. -/
theorem save_model_unfitted_noop_witness :
    m0.save_model "results/models" = .ok [] :=
  save_model_unfitted_noop m0 "results/models" rfl

/-- C9: on a fitted model, `forecast` returns the same predictions for
any two `recent_data` arguments: the result never depends on
`recent_data`. -/
theorem forecast_ignores_recent_data (self : SARIMAModel)
    (r : SARIMAXResults) (days : Nat) (rd1 rd2 : Option DataFrame)
    (hm : self.model = some r) :
    self.forecast days rd1 = self.forecast days rd2 := rfl

/-- C9 witness: passing a recent-data frame or nothing gives the same
forecast on the fitted model `mFit`. -/
theorem forecast_ignores_recent_data_witness :
    mFit.forecast 7 (some d0) = mFit.forecast 7 none :=
  forecast_ignores_recent_data mFit r0 7 (some d0) none rfl

/-- C2: with automatic selection off, a successful `fit` on a freshly
constructed model hands the estimator exactly the configured
non-seasonal order (TREND_P, TREND_D, TREND_Q) and seasonal order
(SEASONAL_P, SEASONAL_D, SEASONAL_Q, M), each key resolved to its
default (10, 2, 0, 5, 2, 0, 12) when absent from the mapping. -/
theorem fit_explicit_orders (est : SARIMAEstimator) (hp : HParams)
    (ld : Option String) (td : String) (d : DataFrame)
    (hauto : hp.AUTO_PARAMS.getD false = false)
    (h2 : d.ncols = 2)
    (hds : ∃ s, (d.rename dcRename).set_index "ds" = Except.ok s) :
    ∃ res : SARIMAXResults,
      SARIMAModel.fit est (SARIMAModel.init hp ld td) d =
        (.ok (), { SARIMAModel.init hp ld td with model := some res },
          d.rename dcRename) ∧
      res.order = (hp.TREND_P.getD 10, hp.TREND_D.getD 2, hp.TREND_Q.getD 0) ∧
      res.seasonal_order =
        (hp.SEASONAL_P.getD 5, hp.SEASONAL_D.getD 2, hp.SEASONAL_Q.getD 0,
          hp.M.getD 12) := by
  obtain ⟨s, hs⟩ := hds
  refine ⟨SARIMAX_fit est s
      (hp.TREND_P.getD 10, hp.TREND_D.getD 2, hp.TREND_Q.getD 0)
      (hp.SEASONAL_P.getD 5, hp.SEASONAL_D.getD 2, hp.SEASONAL_Q.getD 0,
        hp.M.getD 12), ?_, rfl, rfl⟩
  simp [SARIMAModel.fit, h2, hs, SARIMAModel.init, hauto]

/-- C2 witness: fitting with the empty mapping uses the default orders
(10, 2, 0) and (5, 2, 0, 12). -/
theorem fit_explicit_orders_witness :
    ∃ res : SARIMAXResults,
      SARIMAModel.fit est0 (SARIMAModel.init hp0 none "20201112") d0 =
        (.ok (), { SARIMAModel.init hp0 none "20201112" with model := some res },
          d0.rename dcRename) ∧
      res.order = (10, 2, 0) ∧
      res.seasonal_order = (5, 2, 0, 12) :=
  fit_explicit_orders est0 hp0 none "20201112" d0 rfl (by decide) ⟨_, rfl⟩

/-- C8: with AUTO_PARAMS enabled, `fit` on a valid two-column dataset
stops with the AttributeError for the never-assigned `p_max` before any
model is fitted: the receiver, its `model` field included, is returned
unchanged. -/
theorem fit_auto_params_attribute_error (est : SARIMAEstimator)
    (hp : HParams) (ld : Option String) (td : String) (d : DataFrame)
    (hauto : hp.AUTO_PARAMS.getD false = true)
    (h2 : d.ncols = 2)
    (hds : ∃ s, (d.rename dcRename).set_index "ds" = Except.ok s) :
    SARIMAModel.fit est (SARIMAModel.init hp ld td) d =
      (.error (.attributeError "p_max"), SARIMAModel.init hp ld td,
        d.rename dcRename) := by
  obtain ⟨s, hs⟩ := hds
  simp [SARIMAModel.fit, h2, hs, SARIMAModel.init, hauto]

/-- C8 witness: with AUTO_PARAMS true, fitting the valid frame `d0`
fails with the `p_max` attribute error and the model stays unfitted. -/
theorem fit_auto_params_attribute_error_witness :
    SARIMAModel.fit est0 (SARIMAModel.init hpAuto none "20201112") d0 =
      (.error (.attributeError "p_max"), SARIMAModel.init hpAuto none "20201112",
        d0.rename dcRename) :=
  fit_auto_params_attribute_error est0 hpAuto none "20201112" d0 rfl
    (by decide) ⟨_, rfl⟩

/-- C7: after a successful `fit`, `save_model(dir)` performs exactly one
write, under `dir`, of the file named strategy name, then training
date, then the extension .pkl. -/
theorem save_model_after_fit (est : SARIMAEstimator) (hp : HParams)
    (ld : Option String) (td : String) (d : DataFrame) (dir : String)
    (hfit : (SARIMAModel.fit est (SARIMAModel.init hp ld td) d).1 = .ok ()) :
    (SARIMAModel.fit est (SARIMAModel.init hp ld td) d).2.1.save_model dir =
      .ok [⟨dir, "SARIMA" ++ td ++ ".pkl"⟩] := by
  by_cases h2 : d.ncols ≠ 2
  · simp [SARIMAModel.fit, h2] at hfit
  · cases hs : (d.rename dcRename).set_index "ds" with
    | error e => simp [SARIMAModel.fit, h2, hs] at hfit
    | ok s =>
      by_cases ha : hp.AUTO_PARAMS.getD false = true
      · simp [SARIMAModel.fit, h2, hs, ha, SARIMAModel.init] at hfit
      · simp [SARIMAModel.fit, h2, hs, ha, SARIMAModel.save_model,
          SARIMAModel.init]

/-- C7 witness: after fitting `d0`, saving writes the single file
SARIMA20201112.pkl under the given directory. -/
theorem save_model_after_fit_witness :
    (SARIMAModel.fit est0 (SARIMAModel.init hp0 none "20201112") d0).2.1.save_model
        "results/models" =
      .ok [⟨"results/models", "SARIMA" ++ "20201112" ++ ".pkl"⟩] :=
  save_model_after_fit est0 hp0 none "20201112" d0 "results/models" rfl

/-- Helper: the two frames handed back by `evaluate` (the final states
of the caller's arguments) are always the renamed inputs, whatever the
outcome. -/
theorem evaluate_snd (self : SARIMAModel) (tr te : DataFrame) :
    (self.evaluate tr te).2 = (tr.rename dcRename, te.rename dcRename) := by
  cases h1 : (tr.rename dcRename).set_index "ds" with
  | error e => simp [SARIMAModel.evaluate, h1]
  | ok a =>
    cases h2 : (te.rename dcRename).set_index "ds" with
    | error e => simp [SARIMAModel.evaluate, h1, h2]
    | ok b =>
      cases hm : self.model with
      | none => simp [SARIMAModel.evaluate, h1, h2, hm]
      | some r => simp [SARIMAModel.evaluate, h1, h2, hm]

/-- Helper: when the shape check passes, the dataset handed back by
`fit` (the final state of the caller's argument) is the renamed input,
whatever the outcome. -/
theorem fit_dataset_renamed (est : SARIMAEstimator) (self : SARIMAModel)
    (d : DataFrame) (h2 : d.ncols = 2) :
    (SARIMAModel.fit est self d).2.2 = d.rename dcRename := by
  have hne : ¬ d.ncols ≠ 2 := by omega
  cases hix : (d.rename dcRename).set_index "ds" with
  | error e => simp [SARIMAModel.fit, hne, hix]
  | ok s =>
    by_cases ha : self.auto_params <;> simp [SARIMAModel.fit, hne, hix, ha]

/-- Helper: renaming maps the column-name list pointwise. -/
theorem colNames_rename (d : DataFrame) (f : String → String) :
    (d.rename f).colNames = d.colNames.map f := by
  simp [DataFrame.rename, DataFrame.colNames, List.map_map]

/-- C6 counterexample: on the unfitted model `m0`, `save_model` does
not fail: it raises no error and performs no write, refuting the
claim's assertion that all three of evaluate, forecast and save_model
fail before fit. -/
theorem unfitted_save_silent_counterexample :
    m0.save_model "results/models/test" = .ok [] := rfl

/-- C6 amended: before any successful fit, `evaluate` and `forecast`
do fail with an error (an attribute error on the absent handle, or a
key error from indexing), but `save_model` silently does nothing: it
raises no error and performs no write. -/
theorem unfitted_calls_behaviour (self : SARIMAModel) (tr te : DataFrame)
    (days : Nat) (rd : Option DataFrame) (dir : String)
    (hm : self.model = none) :
    (∃ e, (self.evaluate tr te).1 = .error e) ∧
    self.forecast days rd = .error (.attributeError "forecast") ∧
    self.save_model dir = .ok [] := by
  refine ⟨?_, by simp [SARIMAModel.forecast, hm],
    by simp [SARIMAModel.save_model, hm]⟩
  cases h1 : (tr.rename dcRename).set_index "ds" with
  | error e => exact ⟨e, by simp [SARIMAModel.evaluate, h1]⟩
  | ok a =>
    cases h2 : (te.rename dcRename).set_index "ds" with
    | error e => exact ⟨e, by simp [SARIMAModel.evaluate, h1, h2]⟩
    | ok b =>
      exact ⟨.attributeError "fittedvalues",
        by simp [SARIMAModel.evaluate, h1, h2, hm]⟩

/-- C6 amended witness: on the concrete unfitted model `m0`, evaluate
and forecast error and save_model writes nothing. -/
theorem unfitted_calls_behaviour_witness :
    (∃ e, (m0.evaluate d0 d0).1 = .error e) ∧
    m0.forecast 4 none = .error (.attributeError "forecast") ∧
    m0.save_model "results" = .ok [] :=
  unfitted_calls_behaviour m0 d0 d0 4 none "results" rfl

/-- C10: `fit` (once past the shape check) and `evaluate` rename the
columns Date to ds and Consumption to y in the caller's own frames: the
arguments come back relabelled, so a frame that had the Date and
Consumption columns has ds and y columns after the call returns. -/
theorem rename_mutates_callers_frames (est : SARIMAEstimator)
    (self : SARIMAModel) (d tr te : DataFrame) (h2 : d.ncols = 2) :
    (SARIMAModel.fit est self d).2.2 = d.rename dcRename ∧
    (self.evaluate tr te).2.1 = tr.rename dcRename ∧
    (self.evaluate tr te).2.2 = te.rename dcRename ∧
    (d.colNames = ["Date", "Consumption"] →
      (d.rename dcRename).colNames = ["ds", "y"]) := by
  refine ⟨fit_dataset_renamed est self d h2, ?_, ?_, ?_⟩
  · rw [evaluate_snd]
  · rw [evaluate_snd]
  · intro h
    rw [colNames_rename, h]
    rfl

/-- C10 witness: after fitting (or evaluating with) the concrete frame
`d0`, the caller's frame has columns ds and y instead of Date and
Consumption. -/
theorem rename_mutates_callers_frames_witness :
    (SARIMAModel.fit est0 mFit d0).2.2 = d0.rename dcRename ∧
    (mFit.evaluate d0 d0).2.1 = d0.rename dcRename ∧
    (mFit.evaluate d0 d0).2.2 = d0.rename dcRename ∧
    (d0.colNames = ["Date", "Consumption"] →
      (d0.rename dcRename).colNames = ["ds", "y"]) :=
  rename_mutates_callers_frames est0 mFit d0 d0 d0 (by decide)

/-- C4: on a fitted model, `evaluate` over a two-column (Date,
Consumption) train set of n1 rows and test set of n2 rows builds a
combined frame of n1 + n2 rows whose forecast column is empty over the
training rows and then holds the out-of-sample predictions obtained
from `predict` called with start n1 and end n1 + n2 - 1: exactly n2
values at positions n1, n1 + 1, ..., immediately after the last
training index. -/
theorem evaluate_combined_series (self : SARIMAModel) (r : SARIMAXResults)
    (n1 n2 : Nat) (i1 i2 cd cc ed ec : List (Option Val))
    (hm : self.model = some r)
    (hi1 : i1.length = n1) (hcd : cd.length = n1)
    (hi2 : i2.length = n2) (hed : ed.length = n2) :
    ∃ df : DataFrame,
      (self.evaluate ⟨i1, [("Date", cd), ("Consumption", cc)]⟩
          ⟨i2, [("Date", ed), ("Consumption", ec)]⟩).1 = .ok df ∧
      df.nrows = n1 + n2 ∧
      df.getCol "forecast" =
        some (List.replicate n1 none ++
          (r.predict (n1 : Int) ((n1 : Int) + (n2 : Int) - 1)).map
            (fun q => some (Val.rat q))) ∧
      (r.predict (n1 : Int) ((n1 : Int) + (n2 : Int) - 1)).length = n2 ∧
      r.predict (n1 : Int) ((n1 : Int) + (n2 : Int) - 1) =
        (List.range n2).map (fun (i : Nat) => r.predFun ((n1 : Int) + (i : Int))) := by
  subst hcd hed
  refine ⟨⟨cd ++ ed,
      [("gt", cc ++ ec),
       ("model", r.fittedvalues.map (fun q => some (Val.rat q)) ++
         List.replicate ed.length none),
       ("forecast", List.replicate cd.length none ++
         (r.predict (cd.length : Int)
           ((cd.length : Int) + (ed.length : Int) - 1)).map
             (fun q => some (Val.rat q)))]⟩, ?_, ?_, ?_, ?_, ?_⟩
  · simp only [SARIMAModel.evaluate, hm]
    rfl
  · simp [DataFrame.nrows]
  · rfl
  · have ht : (((cd.length : Int) + (ed.length : Int) - 1) + 1 -
        (cd.length : Int)).toNat = ed.length := by omega
    simp only [SARIMAXResults.predict, List.length_map, List.length_range]
    exact ht
  · have ht : (((cd.length : Int) + (ed.length : Int) - 1) + 1 -
        (cd.length : Int)).toNat = ed.length := by omega
    simp only [SARIMAXResults.predict, ht]

/-- Concrete two-row train data for the C4 witness. -/
def cdW : List (Option Val) := [some (Val.nat 10), some (Val.nat 11)]

/-- Concrete two-row train measurements for the C4 witness. -/
def ccW : List (Option Val) := [some (Val.rat 1), some (Val.rat 2)]

/-- Concrete two-row test data for the C4 witness. -/
def edW : List (Option Val) := [some (Val.nat 12), some (Val.nat 13)]

/-- Concrete two-row test measurements for the C4 witness. -/
def ecW : List (Option Val) := [some (Val.rat 3), some (Val.rat 4)]

/-- Concrete two-row default index for the C4 witness. -/
def iW : List (Option Val) := [some (Val.nat 0), some (Val.nat 1)]

/-- C4 witness: evaluating the fitted model `mFit` on concrete two-row
train and test frames yields a four-row combined frame whose forecast
column holds two predictions placed after the two training rows. -/
theorem evaluate_combined_series_witness :
    ∃ df : DataFrame,
      (mFit.evaluate ⟨iW, [("Date", cdW), ("Consumption", ccW)]⟩
          ⟨iW, [("Date", edW), ("Consumption", ecW)]⟩).1 = .ok df ∧
      df.nrows = 2 + 2 ∧
      df.getCol "forecast" =
        some (List.replicate 2 none ++
          (r0.predict (2 : Int) ((2 : Int) + (2 : Int) - 1)).map
            (fun q => some (Val.rat q))) ∧
      (r0.predict (2 : Int) ((2 : Int) + (2 : Int) - 1)).length = 2 ∧
      r0.predict (2 : Int) ((2 : Int) + (2 : Int) - 1) =
        (List.range 2).map (fun (i : Nat) => r0.predFun ((2 : Int) + (i : Int))) :=
  evaluate_combined_series mFit r0 2 2 iW iW cdW ccW edW ecW rfl rfl rfl rfl rfl
